import Mathlib

/-!
Verification development for the KanbanBot repository (two Python pipelines:
IssueSummaryBot/issue_summary_bot.py and KanbanSummaryBot/kanban_summary_bot.py).

Shallow embedding conventions:
- Python floats are modelled as exact rationals.
- Python datetimes are modelled as UTC epoch seconds, of type Int.  The global
  clock read `datetime.now(timezone.utc)` is passed explicitly as a `now`
  parameter to every function that reads it.
- A Python value that may be absent (a missing dict key, or None) is an Option.
- The LLM backend is modelled as a record whose `run` field maps the prompt
  inputs (title, body preview) to `none` when the underlying call raises and to
  `some text` when it returns the text `text`.
-/

/-- Model of `timedelta.days` for the difference of two datetimes given in
epoch seconds: the floor of the difference in whole days (negative when the
first instant precedes the second). -/
def timedeltaDays (diffSeconds : Int) : Int :=
  Int.fdiv diffSeconds 86400

/-- Civil date (year, month, day) from a count of days since 1970-01-01,
the standard proleptic-Gregorian conversion used by Python `datetime`. -/
def civilFromDays (z0 : Int) : Int × Int × Int :=
  let z := z0 + 719468
  let era := Int.fdiv z 146097
  let doe := z - era * 146097
  let yoe := Int.fdiv (doe - Int.fdiv doe 1460 + Int.fdiv doe 36524 - Int.fdiv doe 146096) 365
  let y := yoe + era * 400
  let doy := doe - (365 * yoe + Int.fdiv yoe 4 - Int.fdiv yoe 100)
  let mp := Int.fdiv (5 * doy + 2) 153
  let d := doy - Int.fdiv (153 * mp + 2) 5 + 1
  let m := mp + (if mp < 10 then 3 else -9)
  (y + (if m ≤ 2 then 1 else 0), m, d)

/-- Zero-pad a (nonnegative) integer to two digits. -/
def pad2 (n : Int) : String :=
  if n < 10 then "0" ++ toString n else toString n

/-- Model of `datetime.now(timezone.utc).strftime('%Y-%m-%d %H:%M:%S UTC')`
applied to an instant given in epoch seconds. -/
def strftimeUTC (t : Int) : String :=
  let days := Int.fdiv t 86400
  let secs := Int.emod t 86400
  let ymd := civilFromDays days
  toString ymd.1 ++ "-" ++ pad2 ymd.2.1 ++ "-" ++ pad2 ymd.2.2 ++ " " ++
    pad2 (Int.fdiv secs 3600) ++ ":" ++ pad2 (Int.fdiv (Int.emod secs 3600) 60) ++ ":" ++
    pad2 (Int.emod secs 60) ++ " UTC"

/-- A GitHub issue as consumed by the scoring pipeline (metadata fields of the
external API object that the code reads). `body` is `none` for a missing body;
`created_at` is the creation instant in epoch seconds. -/
structure Issue where
  number : Int
  title : String
  body : Option String
  labels : List String
  comments : Nat
  created_at : Int
  url : String
  deriving Repr, DecidableEq

/-- Embedding of `calculate_issue_age` (issue_summary_bot.py, lines 49-53):
`(datetime.now(timezone.utc) - created_at).days`, with the clock reading
passed explicitly. -/
def calculate_issue_age (now created_at : Int) : Int :=
  timedeltaDays (now - created_at)

/-- Embedding of `issue.body[:500] if issue.body else "No description provided"`:
the body preview fed to the contextual analyzer. A `none` or empty body is
falsy in Python. -/
def body_preview (body : Option String) : String :=
  match body with
  | none => "No description provided"
  | some b => if b.isEmpty then "No description provided" else b.take 500

/-- Digits-to-number accumulation for the decimal parser. -/
def digitsToNat (cs : List Char) : Nat :=
  cs.foldl (fun acc c => 10 * acc + (c.toNat - 48)) 0

/-- Model of the Python builtin `float` applied to a whitespace-free token:
an optional sign, then digits with at most one decimal point, then an optional
exponent part. Returns `none` when the token is not a numeric literal
(the `ValueError` branch). Non-finite literals such as `inf`/`nan` are outside
the modelled subset and also map to `none`. -/
def pyFloatNoSign (cs : List Char) : Option ℚ :=
  let ipSplit := cs.span Char.isDigit
  let rest1 := ipSplit.2
  let fpSplit : List Char × List Char :=
    match rest1 with
    | '.' :: r => r.span Char.isDigit
    | _ => ([], rest1)
  let ip := ipSplit.1
  let fp := fpSplit.1
  let rest2 := match rest1 with
    | '.' :: _ => fpSplit.2
    | _ => rest1
  if ip.isEmpty && fp.isEmpty then none
  else
    let mant : ℚ := (digitsToNat ip : ℚ) + (digitsToNat fp : ℚ) / ((10 : ℚ) ^ fp.length)
    match rest2 with
    | [] => some mant
    | e :: r =>
      if e = 'e' ∨ e = 'E' then
        let signed : Int × List Char :=
          match r with
          | '+' :: r2 => (1, r2)
          | '-' :: r2 => (-1, r2)
          | _ => (1, r)
        let edSplit := signed.2.span Char.isDigit
        if edSplit.1.isEmpty || !edSplit.2.isEmpty then none
        else
          let ex : Int := signed.1 * (digitsToNat edSplit.1 : Int)
          some (if 0 ≤ ex then mant * (10 : ℚ) ^ ex.toNat else mant / (10 : ℚ) ^ (-ex).toNat)
      else none

/-- Model of the Python builtin `float` on a token, handling the leading sign. -/
def pyFloat? (s : String) : Option ℚ :=
  match s.data with
  | '+' :: r => pyFloatNoSign r
  | '-' :: r => (pyFloatNoSign r).map (fun q => -q)
  | cs => pyFloatNoSign cs

/-- Skip leading whitespace, then take the maximal run of non-whitespace
characters; `none` when the input is all whitespace. -/
def firstTokenAux : List Char → Option (List Char)
  | [] => none
  | c :: cs =>
    if c.isWhitespace then firstTokenAux cs
    else some (c :: cs.takeWhile (fun d => !d.isWhitespace))

/-- Embedding of `result.strip().split()[0]`: the first whitespace-separated
token of the response, `none` when there is none (the `IndexError` branch). -/
def firstToken (s : String) : Option String :=
  (firstTokenAux s.data).map (fun cs => String.mk cs)

/-- The external LLM chain, as observed by `analyze_contextual_priority`:
`run title body_preview` is `none` when `chain.run` raises and `some text`
when it returns `text`. -/
structure LLM where
  run : String → String → Option String

/-- Embedding of `analyze_contextual_priority` (issue_summary_bot.py, lines
56-100): run the chain on (title, body preview); extract the first token of
the response; parse it as a float; clamp into [0, 50]. Every failure
(exception from the chain, no token, unparsable token) is caught and yields
0.0 — in the source that branch also reports the error on stderr, an I/O
effect outside this embedding. -/
def analyze_contextual_priority (llm : LLM) (issue : Issue) : ℚ :=
  match llm.run issue.title (body_preview issue.body) with
  | none => 0
  | some result =>
    match firstToken result with
    | none => 0
    | some tok =>
      match pyFloat? tok with
      | none => 0
      | some score => max 0 (min score 50)

/-- The `breakdown` dict returned by `get_priority_score`. -/
structure PriorityBreakdown where
  age : ℚ
  engagement : ℚ
  context : ℚ
  deriving Repr, DecidableEq

/-- The dict returned by `get_priority_score`: total plus breakdown. -/
structure PriorityResult where
  total : ℚ
  breakdown : PriorityBreakdown
  deriving Repr, DecidableEq

/-- Embedding of `get_priority_score` (issue_summary_bot.py, lines 103-138):
age component `min(age_days / 2, 50)`, engagement component
`min(comments * 3, 50)`, contextual component 0.0 when no llm is supplied and
`analyze_contextual_priority` otherwise; total is their sum. The clock reading
used by `calculate_issue_age` is the explicit `now` parameter. -/
def get_priority_score (now : Int) (issue : Issue) (llm : Option LLM) : PriorityResult :=
  let age_days := calculate_issue_age now issue.created_at
  let age_score : ℚ := min ((age_days : ℚ) / 2) 50
  let engagement_score : ℚ := min ((issue.comments : ℚ) * 3) 50
  let contextual_score : ℚ :=
    match llm with
    | none => 0
    | some l => analyze_contextual_priority l issue
  { total := age_score + engagement_score + contextual_score
    breakdown :=
      { age := age_score
        engagement := engagement_score
        context := contextual_score } }

/-- Round-half-to-even to an integer, matching how the Python fixed-point
format chooses the last digit (on the exact rational value; the model treats
floats as exact rationals). -/
def roundHalfEven (q : ℚ) : Int :=
  let f := Int.fdiv q.num (q.den : Int)
  let frac := q - (f : ℚ)
  if frac < 1 / 2 then f
  else if 1 / 2 < frac then f + 1
  else if f % 2 = 0 then f else f + 1

/-- Model of the Python format specifier `.1f`: one digit after the decimal
point, round half to even. -/
def fmt1f (q : ℚ) : String :=
  let n := roundHalfEven (q * 10)
  (if q < 0 then "-" else "") ++ toString (n.natAbs / 10) ++ "." ++ toString (n.natAbs % 10)

/-- One element of the `prioritized_issues` list built in `main`
(issue_summary_bot.py, lines 356-367) and consumed by `format_issue_summary`:
`labels` is already the comma-joined display string (empty when the issue has
no labels), `priority_breakdown` is `none` when the key is missing or the dict
is empty (both falsy in the source). -/
structure PrioritizedIssue where
  number : Int
  title : String
  url : String
  created_at : Int
  labels : String
  comments : Int
  priority_score : ℚ
  priority_breakdown : Option PriorityBreakdown
  summary : String
  reading_materials : String
  deriving Repr, DecidableEq

/-- Embedding of the `priority_display` computation in `format_issue_summary`
(issue_summary_bot.py, lines 254-265): the score to one decimal, then, when a
breakdown dict is present, the age and engagement terms, the context term only
when `context_val > 0`, and a closing parenthesis. -/
def priorityDisplay (i : PrioritizedIssue) : String :=
  match i.priority_breakdown with
  | none => fmt1f i.priority_score
  | some b =>
    fmt1f i.priority_score ++ " (" ++ fmt1f b.age ++ " Age, " ++ fmt1f b.engagement ++
      " Engagement" ++
      (if b.context > 0 then ", " ++ fmt1f b.context ++ " Context analysis" else "") ++ ")"

/-- Embedding of the header f-string of `format_issue_summary`
(issue_summary_bot.py, lines 233-245), with the clock reading explicit.
The section markers reproduce the exact (mojibake-encoded) characters of the
source literals. -/
def issueReportHeader (t : Int) (repo_name recommendation : String) (count : Nat) : String :=
  "# Issue Summary Report\n\n**Repository:** " ++ repo_name ++ "  \n**Generated:** " ++
    strftimeUTC t ++ "  \n**Total Open Issues:** " ++ toString count ++
    "\n\n## ðŸŽ¯ Priority Recommendation\n\n" ++ recommendation ++
    "\n\n## ðŸ“‹ Prioritized Issues\n\n"

/-- Embedding of one iteration of the per-issue loop of `format_issue_summary`
(issue_summary_bot.py, lines 247-279): the markdown section appended for issue
`i` at 1-based position `idx`. -/
def issueSection (t : Int) (idx : Nat) (i : PrioritizedIssue) : String :=
  let age_days := calculate_issue_age t i.created_at
  let labels_str := if i.labels.isEmpty then "none" else i.labels
  let reading_section :=
    if i.reading_materials.isEmpty then ""
    else "\n\n**ðŸ“š Recommended Reading:**\n" ++ i.reading_materials ++ "\n"
  "### " ++ toString idx ++ ". [" ++ i.title ++ "](" ++ i.url ++ ")\n\n**Issue #** " ++
    toString i.number ++ "  \n**Priority Score:** " ++ priorityDisplay i ++
    "  \n**Labels:** " ++ labels_str ++ "  \n**Age:** " ++ toString age_days ++
    " days  \n**Comments:** " ++ toString i.comments ++ "  \n\n**Summary:** " ++
    i.summary ++ reading_section ++ "\n\n---\n\n"

/-- The per-issue loop of `format_issue_summary`: sections for the given
issues in order, with 1-based indices starting at `idx`
(`for idx, issue in enumerate(prioritized_issues, 1)`). -/
def issueSections (t : Int) (idx : Nat) : List PrioritizedIssue → String
  | [] => ""
  | i :: rest => issueSection t idx i ++ issueSections t (idx + 1) rest

/-- Embedding of `format_issue_summary` (issue_summary_bot.py, lines 231-281):
the header f-string followed by one section per issue, in input order. -/
def format_issue_summary (t : Int) (prioritized_issues : List PrioritizedIssue)
    (recommendation repo_name : String) : String :=
  issueReportHeader t repo_name recommendation prioritized_issues.length ++
    issueSections t 1 prioritized_issues

/-- One node of `fieldValues.nodes` on a project item
(kanban_summary_bot.py GraphQL query, lines 155-166). `empty` covers a node
that is falsy (the empty dict produced for a non-single-select field value, or
null) or that lacks a `field` key — the loop skips both. `val fieldName
optName` is a node carrying a `field` object whose `name` key is `fieldName`
(`none` when the key is missing, read with default empty string) and whose own
`name` key is `optName` (`none` when missing, read with default Backlog). -/
inductive FieldValueNode
  | empty
  | val (fieldName : Option String) (optName : Option String)
  deriving Repr, DecidableEq

/-- The selected-option name carried by a field-value node, when present. -/
def FieldValueNode.optionName : FieldValueNode → Option String
  | FieldValueNode.empty => none
  | FieldValueNode.val _ n => n

/-- The issue content of a project item (the `content` dict): `number` is
`none` when the `number` key is absent; the remaining fields are the strings
the code copies into `issue_data`. -/
structure ItemContent where
  number : Option Int
  title : String
  url : String
  state : String
  labels : List String
  created_at : String
  updated_at : String
  deriving Repr, DecidableEq

/-- One raw project item: `content` is `none` when the item has no (truthy)
issue content — a draft note or pull request yields an empty content dict. -/
structure ProjectItem where
  content : Option ItemContent
  fieldValues : List FieldValueNode
  deriving Repr, DecidableEq

/-- The record appended to a column for an included item
(kanban_summary_bot.py, lines 223-231). -/
structure IssueData where
  number : Int
  title : String
  url : String
  state : String
  labels : List String
  created_at : String
  updated_at : String
  deriving Repr, DecidableEq

/-- The `columns` dict of `get_project_items`, pre-seeded with the five fixed
status columns (kanban_summary_bot.py, lines 197-203). -/
structure Columns where
  backlog : List IssueData
  ready : List IssueData
  in_progress : List IssueData
  in_review : List IssueData
  done : List IssueData
  deriving Repr, DecidableEq

/-- Model of the Python `str.lower` method (character-wise lowering; the
field names compared here are ASCII). -/
def pyLower (s : String) : String :=
  String.mk (s.data.map Char.toLower)

/-- Embedding of `field_name.lower() in ['status', 'state']`. -/
def isStatusFieldName (fn : String) : Bool :=
  pyLower fn == "status" || pyLower fn == "state"

/-- Embedding of the status-resolution loop of `get_project_items`
(kanban_summary_bot.py, lines 210-216): `status` starts as `Backlog`; the
first non-skipped field value whose field name matches sets it (with default
`Backlog` when its own `name` key is missing) and breaks. -/
def resolveStatus : List FieldValueNode → String
  | [] => "Backlog"
  | FieldValueNode.empty :: rest => resolveStatus rest
  | FieldValueNode.val fieldName optName :: rest =>
    if isStatusFieldName (fieldName.getD "") then optName.getD "Backlog"
    else resolveStatus rest

/-- Build the `issue_data` dict from a content dict whose numeric identifier
is `n` (kanban_summary_bot.py, lines 223-231). -/
def mkIssueData (n : Int) (ct : ItemContent) : IssueData :=
  { number := n
    title := ct.title
    url := ct.url
    state := ct.state
    labels := ct.labels
    created_at := ct.created_at
    updated_at := ct.updated_at }

/-- Embedding of one iteration of the bucketing loop of `get_project_items`
(kanban_summary_bot.py, lines 205-235): skip an item without truthy content;
resolve its status; skip it when the content lacks a `number` key; append the
issue record to the column named by the status when that column exists, and
drop it otherwise. -/
def addItem (cols : Columns) (item : ProjectItem) : Columns :=
  match item.content with
  | none => cols
  | some content =>
    let status := resolveStatus item.fieldValues
    match content.number with
    | none => cols
    | some n =>
      let d := mkIssueData n content
      if status = "Backlog" then { cols with backlog := cols.backlog ++ [d] }
      else if status = "Ready" then { cols with ready := cols.ready ++ [d] }
      else if status = "In progress" then { cols with in_progress := cols.in_progress ++ [d] }
      else if status = "In review" then { cols with in_review := cols.in_review ++ [d] }
      else if status = "Done" then { cols with done := cols.done ++ [d] }
      else cols

/-- The five columns pre-seeded empty. -/
def emptyColumns : Columns :=
  { backlog := [], ready := [], in_progress := [], in_review := [], done := [] }

/-- Embedding of the bucketing phase of `get_project_items`
(kanban_summary_bot.py, lines 196-237), applied to the list of raw items
drained from all pages, in arrival order. The `board_name` parameter is
carried exactly as in the source signature, which never reads it. -/
def get_project_items (all_items : List ProjectItem) (board_name : Option String) : Columns :=
  all_items.foldl addItem emptyColumns

/-- Total issue count: `sum(len(issues) for issues in columns.values())`. -/
def totalIssues (cols : Columns) : Nat :=
  cols.backlog.length + cols.ready.length + cols.in_progress.length +
    cols.in_review.length + cols.done.length

/-- The three report lines appended for one issue of a kanban column
(kanban_summary_bot.py, lines 359-363). -/
def kanbanIssueLines (issue : IssueData) : String :=
  let labels_str := if issue.labels.isEmpty then "no labels"
    else String.intercalate ", " issue.labels
  "- [#" ++ toString issue.number ++ ": " ++ issue.title ++ "](" ++ issue.url ++ ")\n" ++
    "  - **Labels:** " ++ labels_str ++ "\n" ++
    "  - **Status:** " ++ issue.state ++ "\n"

/-- One column section of the kanban report (kanban_summary_bot.py, lines
350-364): heading with emoji and count, then either the empty-column
placeholder or the issue lines followed by a blank line. -/
def kanbanColumnSection (emoji name : String) (issues : List IssueData) : String :=
  "## " ++ emoji ++ " " ++ name ++ " (" ++ toString issues.length ++ ")\n\n" ++
    (if issues.isEmpty then "*No issues in this column*\n\n"
     else String.join (issues.map kanbanIssueLines) ++ "\n")

/-- Embedding of `format_kanban_summary` (kanban_summary_bot.py, lines
325-369), with the clock reading explicit. Column order and the
(mojibake-encoded) emoji markers reproduce `column_config` from the source. -/
def format_kanban_summary (t : Int) (columns : Columns)
    (project_name board_name : String) : String :=
  "# Kanban Board Summary\n\n**Project:** " ++ project_name ++ "  \n**Board:** " ++
    board_name ++
    ("  \n**Generated:** " ++ strftimeUTC t ++ "  \n**Total Issues:** " ++
      toString (totalIssues columns) ++ "\n\n" ++
      kanbanColumnSection "ðŸ“‹" "Backlog" columns.backlog ++
      kanbanColumnSection "âœ…" "Ready" columns.ready ++
      kanbanColumnSection "ðŸ”„" "In progress" columns.in_progress ++
      kanbanColumnSection "ðŸ‘€" "In review" columns.in_review ++
      kanbanColumnSection "âœ”ï¸" "Done" columns.done ++
      "---\n\n" ++ "*This summary was automatically generated by the Kanban Summary Bot.*\n")

/-- The part of the kanban report that precedes the board name (everything up
to and including the Board header label). -/
def kanbanReportPre (project_name : String) : String :=
  "# Kanban Board Summary\n\n**Project:** " ++ project_name ++ "  \n**Board:** "

/-- The part of the kanban report that follows the board name (the rest of
the header, the five column sections and the footer). -/
def kanbanReportTail (t : Int) (columns : Columns) : String :=
  "  \n**Generated:** " ++ strftimeUTC t ++ "  \n**Total Issues:** " ++
    toString (totalIssues columns) ++ "\n\n" ++
    kanbanColumnSection "ðŸ“‹" "Backlog" columns.backlog ++
    kanbanColumnSection "âœ…" "Ready" columns.ready ++
    kanbanColumnSection "ðŸ”„" "In progress" columns.in_progress ++
    kanbanColumnSection "ðŸ‘€" "In review" columns.in_review ++
    kanbanColumnSection "âœ”ï¸" "Done" columns.done ++
    "---\n\n" ++ "*This summary was automatically generated by the Kanban Summary Bot.*\n"

/-- The predicate of the status scan: a field value whose field name
case-insensitively equals status or state. -/
def matchesStatusField : FieldValueNode → Bool
  | FieldValueNode.empty => false
  | FieldValueNode.val fieldName _ => isStatusFieldName (fieldName.getD "")

/-- Modelled from the claim wording (refinement side): the status of an item
is the selected-option name of the first field value whose field name
case-insensitively equals status or state, defaulting to Backlog when no such
field value (or no selected name) exists. -/
def statusSpec (item : ProjectItem) : String :=
  (((item.fieldValues.find? matchesStatusField).bind FieldValueNode.optionName).getD "Backlog")

/-- Refinement side: the entry an item contributes to the column named `c` —
present exactly when the item carries issue content with a numeric identifier
and its resolved status equals `c`. -/
def specEntry (c : String) (item : ProjectItem) : Option IssueData :=
  match item.content with
  | none => none
  | some ct =>
    match ct.number with
    | none => none
    | some n => if statusSpec item = c then some (mkIssueData n ct) else none

/-- Refinement side: each of the five fixed columns holds, in arrival order,
the entries of the items whose resolved status names that column. -/
def bucketSpec (items : List ProjectItem) : Columns :=
  { backlog := items.filterMap (specEntry "Backlog")
    ready := items.filterMap (specEntry "Ready")
    in_progress := items.filterMap (specEntry "In progress")
    in_review := items.filterMap (specEntry "In review")
    done := items.filterMap (specEntry "Done") }

/-- Substring containment at the string level: `needle` occurs contiguously in
`hay`. -/
def containsSubstring (hay needle : String) : Prop :=
  ∃ pre post : String, hay = pre ++ needle ++ post

/-- The per-issue sections as a list of strings, one per issue, with 1-based
indices starting at `idx` (the list view of `issueSections`). -/
def sectionList (t : Int) (idx : Nat) : List PrioritizedIssue → List String
  | [] => []
  | i :: rest => issueSection t idx i :: sectionList t (idx + 1) rest

/-- Concrete issue: created at epoch 0, 20 comments. -/
def issueSixty : Issue :=
  { number := 1, title := "Crash on startup", body := some "It crashes", labels := [],
    comments := 20, created_at := 0, url := "http://example/1" }

/-- Concrete issue: created at epoch 0, no comments, no labels. -/
def issueZero : Issue :=
  { number := 2, title := "Typo", body := none, labels := [],
    comments := 0, created_at := 0, url := "http://example/2" }

/-- Concrete issue whose creation instant (epoch 86400) lies one day in the
future of the clock reading 0. -/
def issueFuture : Issue :=
  { number := 3, title := "From the future", body := none, labels := [],
    comments := 0, created_at := 86400, url := "http://example/3" }

/-- An analyzer backend whose chain call raises. -/
def llmExc : LLM := { run := fun _ _ => none }

/-- An analyzer backend returning text whose first token is not numeric. -/
def llmBad : LLM := { run := fun _ _ => some "nonsense reply" }

/-- An analyzer backend returning a numeric token above the cap. -/
def llmGood : LLM := { run := fun _ _ => some "60 because severe" }

/-- Concrete project item: issue content number 7, status field selected name
Archived (not one of the five columns). -/
def archivedContent : ItemContent :=
  { number := some 7, title := "Old task", url := "http://example/7", state := "OPEN",
    labels := ["stale"], created_at := "2024-01-01T00:00:00Z",
    updated_at := "2024-06-01T00:00:00Z" }

/-- The raw item wrapping `archivedContent` with a Status field value named
Archived. -/
def archivedItem : ProjectItem :=
  { content := some archivedContent
    fieldValues := [FieldValueNode.val (some "Status") (some "Archived")] }

/-- Concrete prioritized issue with a breakdown whose context component is
positive. -/
def samplePI : PrioritizedIssue :=
  { number := 5, title := "Crash on startup", url := "http://example/5",
    created_at := 0, labels := "bug, urgent", comments := 4, priority_score := 27,
    priority_breakdown := some { age := 5, engagement := 12, context := 10 },
    summary := "It crashes.", reading_materials := "" }


/-- Helper: the age component of the score, unfolded. -/
theorem score_age_eq (now : Int) (i : Issue) (llm : Option LLM) :
    (get_priority_score now i llm).breakdown.age
      = min ((calculate_issue_age now i.created_at : ℚ) / 2) 50 := rfl

/-- Helper: the engagement component of the score, unfolded. -/
theorem score_eng_eq (now : Int) (i : Issue) (llm : Option LLM) :
    (get_priority_score now i llm).breakdown.engagement
      = min ((i.comments : ℚ) * 3) 50 := rfl

/-- Helper: the contextual component is 0 with no analyzer. -/
theorem score_context_none_eq (now : Int) (i : Issue) :
    (get_priority_score now i none).breakdown.context = 0 := rfl

/-- Helper: the contextual component is the analyzer result when an analyzer
is supplied. -/
theorem score_context_some_eq (now : Int) (i : Issue) (l : LLM) :
    (get_priority_score now i (some l)).breakdown.context
      = analyze_contextual_priority l i := rfl

/-- Helper: the total is the sum of the three components. -/
theorem score_total_eq (now : Int) (i : Issue) (llm : Option LLM) :
    (get_priority_score now i llm).total
      = (get_priority_score now i llm).breakdown.age
        + (get_priority_score now i llm).breakdown.engagement
        + (get_priority_score now i llm).breakdown.context := rfl

/-- Helper: the contextual component returned by the analyzer is always in
[0, 50]. -/
theorem analyze_contextual_priority_mem_Icc (llm : LLM) (i : Issue) :
    0 ≤ analyze_contextual_priority llm i ∧ analyze_contextual_priority llm i ≤ 50 := by
  unfold analyze_contextual_priority
  split
  · norm_num
  · split
    · norm_num
    · split
      · norm_num
      · exact ⟨le_max_left 0 _, max_le (by norm_num) (min_le_right _ 50)⟩

/-- C1: with no contextual analyzer, `get_priority_score` returns a total
equal to min(age_days / 2, 50) + min(comments * 3, 50), where age_days is the
whole-day difference between the clock reading and `created_at`; an issue
aged 60 days with 20 comments scores exactly 80.0, and an issue with age 0
and 0 comments scores 0.0. -/
theorem priority_total_no_analyzer (now : Int) (i : Issue) :
    (get_priority_score now i none).total
        = min ((calculate_issue_age now i.created_at : ℚ) / 2) 50
          + min ((i.comments : ℚ) * 3) 50
      ∧ (calculate_issue_age now i.created_at = 60 → i.comments = 20 →
          (get_priority_score now i none).total = 80)
      ∧ (calculate_issue_age now i.created_at = 0 → i.comments = 0 →
          (get_priority_score now i none).total = 0) := by
  have hbase : (get_priority_score now i none).total
      = min ((calculate_issue_age now i.created_at : ℚ) / 2) 50
        + min ((i.comments : ℚ) * 3) 50 := by
    rw [score_total_eq, score_age_eq, score_eng_eq, score_context_none_eq, add_zero]
  refine ⟨hbase, ?_, ?_⟩ <;> intro h1 h2 <;> rw [hbase, h1, h2] <;> norm_num [min_def]

/-- Witness for C1 at concrete inputs: clock 5184000 (60 whole days after
creation) with 20 comments gives 80; clock 0 with age 0 and 0 comments gives
0. -/
theorem priority_total_no_analyzer_witness :
    (get_priority_score 5184000 issueSixty none).total = 80
      ∧ (get_priority_score 0 issueZero none).total = 0 :=
  ⟨(priority_total_no_analyzer 5184000 issueSixty).2.1 (by decide) rfl,
   (priority_total_no_analyzer 0 issueZero).2.2 (by decide) rfl⟩

/-- C2 counterexample: for an issue created one day in the future of the
clock reading, the age component of `get_priority_score` is negative (it is
-0.5), and so is the total, so the components do not all lie in [0, 50] and
the total does not lie in [0, 150]. -/
theorem priority_components_future_counterexample :
    (get_priority_score 0 issueFuture none).breakdown.age < 0
      ∧ (get_priority_score 0 issueFuture none).total < 0 := by
  have hage : calculate_issue_age 0 issueFuture.created_at = -1 := by decide
  have hcom : (issueFuture.comments : ℚ) = 0 := by norm_num [issueFuture]
  constructor
  · rw [score_age_eq, hage]
    norm_num [min_def]
  · rw [score_total_eq, score_age_eq, score_eng_eq, score_context_none_eq, hage, hcom]
    norm_num [min_def]

/-- C2 (amended): for every issue whose creation instant does not lie in the
future of the clock reading, every component of the breakdown returned by
`get_priority_score` lies in [0, 50], and the total equals the sum of the
three components and lies in [0, 150] — with or without an analyzer. (The
counterexample above forces the restriction on `created_at`: a future-dated
issue yields a negative age component.) -/
theorem priority_components_bounds (now : Int) (i : Issue) (llm : Option LLM)
    (h : i.created_at ≤ now) :
    (0 ≤ (get_priority_score now i llm).breakdown.age
        ∧ (get_priority_score now i llm).breakdown.age ≤ 50)
      ∧ (0 ≤ (get_priority_score now i llm).breakdown.engagement
        ∧ (get_priority_score now i llm).breakdown.engagement ≤ 50)
      ∧ (0 ≤ (get_priority_score now i llm).breakdown.context
        ∧ (get_priority_score now i llm).breakdown.context ≤ 50)
      ∧ (get_priority_score now i llm).total
          = (get_priority_score now i llm).breakdown.age
            + (get_priority_score now i llm).breakdown.engagement
            + (get_priority_score now i llm).breakdown.context
      ∧ (0 ≤ (get_priority_score now i llm).total
        ∧ (get_priority_score now i llm).total ≤ 150) := by
  have hdays : (0 : Int) ≤ calculate_issue_age now i.created_at := by
    unfold calculate_issue_age timedeltaDays
    exact Int.fdiv_nonneg (by omega) (by norm_num)
  have hdq : (0 : ℚ) ≤ (calculate_issue_age now i.created_at : ℚ) := by exact_mod_cast hdays
  have hage : 0 ≤ (get_priority_score now i llm).breakdown.age
      ∧ (get_priority_score now i llm).breakdown.age ≤ 50 := by
    rw [score_age_eq]
    exact ⟨le_min (by positivity) (by norm_num), min_le_right _ _⟩
  have heng : 0 ≤ (get_priority_score now i llm).breakdown.engagement
      ∧ (get_priority_score now i llm).breakdown.engagement ≤ 50 := by
    rw [score_eng_eq]
    exact ⟨le_min (by positivity) (by norm_num), min_le_right _ _⟩
  have hctx : 0 ≤ (get_priority_score now i llm).breakdown.context
      ∧ (get_priority_score now i llm).breakdown.context ≤ 50 := by
    cases llm with
    | none => rw [score_context_none_eq]; norm_num
    | some l => rw [score_context_some_eq]; exact analyze_contextual_priority_mem_Icc l i
  refine ⟨hage, heng, hctx, score_total_eq now i llm, ?_, ?_⟩
  · rw [score_total_eq]
    exact add_nonneg (add_nonneg hage.1 heng.1) hctx.1
  · rw [score_total_eq]
    calc (get_priority_score now i llm).breakdown.age
          + (get_priority_score now i llm).breakdown.engagement
          + (get_priority_score now i llm).breakdown.context
        ≤ 50 + 50 + 50 := add_le_add (add_le_add hage.2 heng.2) hctx.2
      _ = 150 := by norm_num

/-- Witness for C2 (amended) at clock 0 on an issue created at 0, with no
analyzer supplied. -/
theorem priority_components_bounds_witness :
    (0 ≤ (get_priority_score 0 issueZero none).breakdown.age
        ∧ (get_priority_score 0 issueZero none).breakdown.age ≤ 50)
      ∧ (0 ≤ (get_priority_score 0 issueZero none).breakdown.engagement
        ∧ (get_priority_score 0 issueZero none).breakdown.engagement ≤ 50)
      ∧ (0 ≤ (get_priority_score 0 issueZero none).breakdown.context
        ∧ (get_priority_score 0 issueZero none).breakdown.context ≤ 50)
      ∧ (get_priority_score 0 issueZero none).total
          = (get_priority_score 0 issueZero none).breakdown.age
            + (get_priority_score 0 issueZero none).breakdown.engagement
            + (get_priority_score 0 issueZero none).breakdown.context
      ∧ (0 ≤ (get_priority_score 0 issueZero none).total
        ∧ (get_priority_score 0 issueZero none).total ≤ 150) :=
  priority_components_bounds 0 issueZero none (by decide)

/-- C7: two issues identical except in their label sets (for any label set,
including bug/urgent/critical) receive identical totals and identical
breakdowns from `get_priority_score` with no analyzer: labels are not an
input to the score. -/
theorem labels_do_not_affect_score (now : Int) (i : Issue) (L : List String) :
    get_priority_score now { i with labels := L } none = get_priority_score now i none := rfl

/-- C3: the context component of `get_priority_score` is exactly 0.0 whenever
no analyzer is supplied, for any issue content; when an analyzer is supplied
the context component is the result of `analyze_contextual_priority`, which
yields exactly 0.0 on any failure (an exception from the chain call, an empty
response, or a first token that does not parse as a number) without
propagating an exception (the embedding is a total function; the source also
reports the failure on stderr), and clamps any successfully parsed value into
[0, 50]. -/
theorem context_component_behavior (t : Int) (i : Issue) (llm : LLM) :
    (get_priority_score t i none).breakdown.context = 0
      ∧ (get_priority_score t i (some llm)).breakdown.context
          = analyze_contextual_priority llm i
      ∧ (llm.run i.title (body_preview i.body) = none →
          analyze_contextual_priority llm i = 0)
      ∧ (∀ r, llm.run i.title (body_preview i.body) = some r →
          (firstToken r).bind pyFloat? = none →
          analyze_contextual_priority llm i = 0)
      ∧ (∀ r tok v, llm.run i.title (body_preview i.body) = some r →
          firstToken r = some tok → pyFloat? tok = some v →
          analyze_contextual_priority llm i = max 0 (min v 50)
            ∧ 0 ≤ analyze_contextual_priority llm i
            ∧ analyze_contextual_priority llm i ≤ 50) := by
  refine ⟨score_context_none_eq t i, score_context_some_eq t i llm, ?_, ?_, ?_⟩
  · intro h
    unfold analyze_contextual_priority
    rw [h]
  · intro r hr hbind
    unfold analyze_contextual_priority
    rw [hr]
    cases hft : firstToken r with
    | none => simp [hft]
    | some tok =>
      rw [hft, Option.some_bind] at hbind
      simp [hft, hbind]
  · intro r tok v hr hft hpv
    have hval : analyze_contextual_priority llm i = max 0 (min v 50) := by
      unfold analyze_contextual_priority
      rw [hr]
      simp [hft, hpv]
    exact ⟨hval, by rw [hval]; exact le_max_left 0 _,
      by rw [hval]; exact max_le (by norm_num) (min_le_right _ 50)⟩

/-- Witness for C3 at concrete analyzers: a raising chain and an unparsable
response both degrade to 0.0; a response whose first token parses as 60 is
clamped to 50, and that value is what the score reports as the context
component. -/
theorem context_component_behavior_witness :
    analyze_contextual_priority llmExc issueZero = 0
      ∧ analyze_contextual_priority llmBad issueZero = 0
      ∧ analyze_contextual_priority llmGood issueZero = 50
      ∧ (get_priority_score 0 issueZero (some llmGood)).breakdown.context = 50 := by
  have h1 : analyze_contextual_priority llmExc issueZero = 0 :=
    (context_component_behavior 0 issueZero llmExc).2.2.1 rfl
  have h2 : analyze_contextual_priority llmBad issueZero = 0 :=
    (context_component_behavior 0 issueZero llmBad).2.2.2.1 "nonsense reply" rfl (by decide)
  have hpv : pyFloat? "60" = some 60 := by
    have hdata : "60".data = ['6', '0'] := rfl
    have hspan : List.span Char.isDigit ['6', '0'] = (['6', '0'], []) := by decide
    have hd1 : digitsToNat ['6', '0'] = 60 := by decide
    have hd2 : digitsToNat ([] : List Char) = 0 := rfl
    simp [pyFloat?, hdata, pyFloatNoSign, hspan, hd1, hd2]
  have h3 : analyze_contextual_priority llmGood issueZero = 50 := by
    have h := ((context_component_behavior 0 issueZero llmGood).2.2.2.2
      "60 because severe" "60" 60 rfl (by decide) hpv).1
    rw [h]
    norm_num
  have h4 : (get_priority_score 0 issueZero (some llmGood)).breakdown.context = 50 := by
    rw [(context_component_behavior 0 issueZero llmGood).2.1, h3]
  exact ⟨h1, h2, h3, h4⟩

/-- Helper: the break-at-first-match status scan equals find-first-then-read. -/
theorem resolveStatus_eq_find (fvs : List FieldValueNode) :
    resolveStatus fvs
      = ((fvs.find? matchesStatusField).bind FieldValueNode.optionName).getD "Backlog" := by
  induction fvs with
  | nil => rfl
  | cons fv rest ih =>
    cases fv with
    | empty => simpa [resolveStatus, List.find?, matchesStatusField] using ih
    | val fn optN =>
      by_cases h : isStatusFieldName (fn.getD "")
      · simp [resolveStatus, List.find?, matchesStatusField, h, FieldValueNode.optionName]
      · simpa [resolveStatus, List.find?, matchesStatusField, h] using ih

/-- Helper: the loop status equals the claim-side status function. -/
theorem resolveStatus_eq_statusSpec (item : ProjectItem) :
    resolveStatus item.fieldValues = statusSpec item := by
  rw [resolveStatus_eq_find]; rfl

/-- Helper: the bucketing fold, from any accumulator, appends to each column
exactly the spec entries of the processed items in order. -/
theorem foldl_addItem_eq (items : List ProjectItem) (acc : Columns) :
    items.foldl addItem acc =
      { backlog := acc.backlog ++ items.filterMap (specEntry "Backlog")
        ready := acc.ready ++ items.filterMap (specEntry "Ready")
        in_progress := acc.in_progress ++ items.filterMap (specEntry "In progress")
        in_review := acc.in_review ++ items.filterMap (specEntry "In review")
        done := acc.done ++ items.filterMap (specEntry "Done") } := by
  induction items generalizing acc with
  | nil => simp
  | cons it rest ih =>
    rw [List.foldl_cons, ih]
    simp only [List.filterMap_cons]
    have hs := resolveStatus_eq_statusSpec it
    cases hc : it.content with
    | none => simp [addItem, hc, specEntry]
    | some ct =>
      cases hn : ct.number with
      | none => simp [addItem, hc, hn, specEntry]
      | some n =>
        by_cases h1 : statusSpec it = "Backlog"
        · simp [addItem, hc, hn, hs, h1, specEntry, List.append_assoc]
        by_cases h2 : statusSpec it = "Ready"
        · simp [addItem, hc, hn, hs, h1, h2, specEntry, List.append_assoc]
        by_cases h3 : statusSpec it = "In progress"
        · simp [addItem, hc, hn, hs, h1, h2, h3, specEntry, List.append_assoc]
        by_cases h4 : statusSpec it = "In review"
        · simp [addItem, hc, hn, hs, h1, h2, h3, h4, specEntry, List.append_assoc]
        by_cases h5 : statusSpec it = "Done"
        · simp [addItem, hc, hn, hs, h1, h2, h3, h4, h5, specEntry, List.append_assoc]
        · simp [addItem, hc, hn, hs, h1, h2, h3, h4, h5, specEntry]

/-- C4: for every list of raw project items and any board name, the bucketer
of `get_project_items` produces exactly the refinement-side mapping: an item
with no issue content or no numeric identifier appears in no column; the
status of the others is the selected-option name of the first field value
whose field name case-insensitively equals status or state (Backlog when no
such field value exists); each of the five columns holds, in arrival order,
exactly the items whose status names it, and items with any other status
appear in no column. -/
theorem bucketer_refines_spec (items : List ProjectItem) (b : Option String) :
    get_project_items items b = bucketSpec items := by
  unfold get_project_items bucketSpec
  rw [foldl_addItem_eq]
  simp [emptyColumns]

/-- C5 counterexample: a raw item with issue content, a numeric identifier and
a Status field whose selected name is Archived (not a known bucket name) is
placed in no column at all — in particular it does not default to Backlog. -/
theorem archived_item_counterexample :
    get_project_items [archivedItem] none = emptyColumns
      ∧ statusSpec archivedItem = "Archived"
      ∧ archivedItem.content = some archivedContent
      ∧ archivedContent.number = some 7 := by
  refine ⟨?_, by decide, rfl, rfl⟩
  decide

/-- C5 (amended): a raw project item carrying issue content with a numeric
identifier whose resolved status does not match any known bucket name is
dropped: removing it from the listing leaves the mapping returned by
`get_project_items` unchanged (only an item with no status or state field
value defaults to Backlog). -/
theorem unrecognized_status_item_dropped (b : Option String)
    (xs ys : List ProjectItem) (item : ProjectItem) (ct : ItemContent) (n : Int)
    (hc : item.content = some ct) (hn : ct.number = some n)
    (hstatus : resolveStatus item.fieldValues ∉
      (["Backlog", "Ready", "In progress", "In review", "Done"] : List String)) :
    get_project_items (xs ++ item :: ys) b = get_project_items (xs ++ ys) b := by
  simp only [List.mem_cons, List.mem_singleton, not_or] at hstatus
  obtain ⟨h1, h2, h3, h4, h5, -⟩ := hstatus
  have key : ∀ A : Columns, addItem A item = A := by
    intro A
    unfold addItem
    simp [hc, hn, h1, h2, h3, h4, h5]
  unfold get_project_items
  rw [List.foldl_append, List.foldl_cons, key, ← List.foldl_append]

/-- Witness for C5 (amended): dropping the concrete Archived item from a
one-item listing yields the same (empty) column mapping as the empty listing. -/
theorem unrecognized_status_item_dropped_witness :
    get_project_items ([] ++ archivedItem :: []) none
      = get_project_items ([] ++ []) none :=
  unrecognized_status_item_dropped none [] [] archivedItem archivedContent 7
    rfl rfl (by decide)

/-- C10: the `board_name` argument has no effect on the column mapping
returned by `get_project_items` (the two calls are equal for any two board
names), and `format_kanban_summary` only echoes it verbatim into the report
header: the report is a fixed prefix (depending only on the project name),
then the board name, then a fixed tail (depending only on the clock and the
columns). -/
theorem board_name_noninterference :
    (∀ (items : List ProjectItem) (b1 b2 : Option String),
        get_project_items items b1 = get_project_items items b2)
      ∧ (∀ (t : Int) (cols : Columns) (p : String), ∃ pre post : String,
          (∀ b : String, format_kanban_summary t cols p b = pre ++ b ++ post)
            ∧ pre = kanbanReportPre p ∧ post = kanbanReportTail t cols) := by
  refine ⟨fun items b1 b2 => rfl, fun t cols p => ?_⟩
  exact ⟨kanbanReportPre p, kanbanReportTail t cols, fun b => rfl, rfl, rfl⟩

/-- Helper: folding string append from `s` equals `s` prepended to the fold
from the empty string. -/
theorem strFoldl_append (l : List String) (s : String) :
    l.foldl (fun r u => r ++ u) s = s ++ l.foldl (fun r u => r ++ u) "" := by
  induction l generalizing s with
  | nil => simp [List.foldl, String.append_empty]
  | cons a l ih =>
    rw [List.foldl_cons, List.foldl_cons, ih (s ++ a), ih ("" ++ a), String.empty_append,
      String.append_assoc]

/-- Helper: `String.join` on a cons. -/
theorem strJoin_cons (a : String) (l : List String) :
    String.join (a :: l) = a ++ String.join l := by
  show (a :: l).foldl (fun r u => r ++ u) "" = a ++ l.foldl (fun r u => r ++ u) ""
  rw [List.foldl_cons, String.empty_append, strFoldl_append]

/-- Helper: joining the section list gives the section concatenation of the
per-issue loop. -/
theorem strJoin_sectionList (t : Int) (idx : Nat) (l : List PrioritizedIssue) :
    String.join (sectionList t idx l) = issueSections t idx l := by
  induction l generalizing idx with
  | nil => rfl
  | cons i rest ih =>
    rw [sectionList, issueSections, strJoin_cons, ih]

/-- Helper: the section list has one entry per issue. -/
theorem sectionList_length (t : Int) (idx : Nat) (l : List PrioritizedIssue) :
    (sectionList t idx l).length = l.length := by
  induction l generalizing idx with
  | nil => rfl
  | cons i rest ih => simp [sectionList, ih]

/-- Helper: the k-th entry of the section list is the section of the k-th
issue, at 1-based index `idx + k`. -/
theorem sectionList_get (t : Int) (l : List PrioritizedIssue) (idx k : Nat)
    (hk : k < (sectionList t idx l).length) (hk' : k < l.length) :
    (sectionList t idx l).get ⟨k, hk⟩ = issueSection t (idx + k) (l.get ⟨k, hk'⟩) := by
  induction l generalizing idx k with
  | nil => exact absurd hk' (Nat.not_lt_zero k)
  | cons i rest ih =>
    cases k with
    | zero => simp [sectionList]
    | succ k =>
      have hrec := ih (idx + 1) k (by simpa [sectionList] using hk) (Nat.lt_of_succ_lt_succ hk')
      simpa [sectionList, Nat.add_assoc, Nat.add_comm 1 k] using hrec

/-- C8: `format_issue_summary` renders per-issue sections in exactly the
order of its input sequence with no internal re-sort — the report is the
header followed by the joined list of sections whose k-th element is the
section of the k-th input issue at 1-based index k+1 — and the inline
priority-score breakdown shows the age and engagement terms whenever a
breakdown is present and includes the context term exactly when the context
component is strictly positive. -/
theorem format_preserves_order_and_context_term (t : Int)
    (issues : List PrioritizedIssue) (rec repo : String) :
    (∃ secs : List String,
        format_issue_summary t issues rec repo
            = issueReportHeader t repo rec issues.length ++ String.join secs
          ∧ secs.length = issues.length
          ∧ ∀ k (hk : k < secs.length) (hk' : k < issues.length),
              secs.get ⟨k, hk⟩ = issueSection t (k + 1) (issues.get ⟨k, hk'⟩))
      ∧ (∀ (i : PrioritizedIssue) (bd : PriorityBreakdown),
          i.priority_breakdown = some bd →
          priorityDisplay i
            = (fmt1f i.priority_score ++ " (" ++ fmt1f bd.age ++ " Age, "
                ++ fmt1f bd.engagement ++ " Engagement")
              ++ (if bd.context > 0 then ", " ++ fmt1f bd.context ++ " Context analysis"
                  else "")
              ++ ")") := by
  constructor
  · refine ⟨sectionList t 1 issues, ?_, sectionList_length t 1 issues, ?_⟩
    · rw [format_issue_summary, strJoin_sectionList]
    · intro k hk hk'
      rw [sectionList_get t issues 1 k hk hk', Nat.add_comm 1 k]
  · intro i bd h
    unfold priorityDisplay
    rw [h]

/-- Witness for C8 at a concrete one-issue list and a concrete breakdown with
positive context component. -/
theorem format_preserves_order_witness :
    format_issue_summary 0 [samplePI] "rec" "o/r"
        = issueReportHeader 0 "o/r" "rec" 1 ++ issueSection 0 1 samplePI
      ∧ priorityDisplay samplePI
          = (fmt1f samplePI.priority_score ++ " (" ++ fmt1f 5 ++ " Age, "
              ++ fmt1f 12 ++ " Engagement")
            ++ (", " ++ fmt1f 10 ++ " Context analysis") ++ ")" := by
  constructor
  · obtain ⟨secs, heq, hlen, hget⟩ :=
      (format_preserves_order_and_context_term 0 [samplePI] "rec" "o/r").1
    obtain ⟨a, ha⟩ := List.length_eq_one.mp (by simpa using hlen)
    subst ha
    have ha0 : a = issueSection 0 1 samplePI := by
      have h := hget 0 (by simp) (by simp)
      simpa using h
    rw [heq, ha0, strJoin_cons,
      show String.join ([] : List String) = "" from rfl, String.append_empty]
    simp
  · have h := (format_preserves_order_and_context_term 0 [samplePI] "rec" "o/r").2
      samplePI { age := 5, engagement := 12, context := 10 } rfl
    rw [h, if_pos (by norm_num : (10 : ℚ) > 0)]

/-- C9: for every recommendation text, formatting an empty issue list yields
exactly the header block (no per-issue sections), and that report contains
the literal substring Total Open Issues:** 0. -/
theorem empty_list_report (t : Int) (rec repo : String) :
    format_issue_summary t [] rec repo = issueReportHeader t repo rec 0
      ∧ containsSubstring (format_issue_summary t [] rec repo)
          "Total Open Issues:** 0" := by
  have h0 : format_issue_summary t [] rec repo = issueReportHeader t repo rec 0 := by
    simp [format_issue_summary, issueSections, String.append_empty]
  refine ⟨h0, ?_⟩
  rw [h0]
  have m1 : ("  \n**Total Open Issues:** " : String) ++ toString (0 : Nat)
      = "  \n**" ++ "Total Open Issues:** 0" := by decide
  have step : ∀ z : String,
      ("  \n**Total Open Issues:** " : String) ++ (toString (0 : Nat) ++ z)
        = "  \n**" ++ ("Total Open Issues:** 0" ++ z) := by
    intro z
    rw [← String.append_assoc, ← String.append_assoc, m1]
  refine ⟨"# Issue Summary Report\n\n**Repository:** " ++ repo ++ "  \n**Generated:** "
      ++ strftimeUTC t ++ "  \n**",
    "\n\n## ðŸŽ¯ Priority Recommendation\n\n" ++ rec
      ++ "\n\n## ðŸ“‹ Prioritized Issues\n\n", ?_⟩
  rw [issueReportHeader]
  simp only [String.append_assoc]
  rw [step]

/-- C6 counterexample: the report and the score both read the global clock,
so two invocations with identical explicit inputs but different clock
readings disagree: the formatted reports at clock 0 and at clock 86400
differ (the Generated timestamp changes), and the totals for the same issue
at clock 0 and at clock 345600 differ (the age component changes). -/
theorem purity_counterexample :
    format_issue_summary 0 [] "r" "o/r" ≠ format_issue_summary 86400 [] "r" "o/r"
      ∧ (get_priority_score 0 issueZero none).total
          ≠ (get_priority_score 345600 issueZero none).total := by
  constructor
  · decide
  · have e1 : (get_priority_score 0 issueZero none).total = 0 := by
      rw [score_total_eq, score_age_eq, score_eng_eq, score_context_none_eq]
      rw [show calculate_issue_age 0 issueZero.created_at = 0 from by decide]
      norm_num [issueZero, min_def]
    have e2 : (get_priority_score 345600 issueZero none).total = 2 := by
      rw [score_total_eq, score_age_eq, score_eng_eq, score_context_none_eq]
      rw [show calculate_issue_age 345600 issueZero.created_at = 4 from by decide]
      norm_num [issueZero, min_def]
    rw [e1, e2]
    norm_num

/-- C6 (amended): scoring and formatting are pure given their inputs and the
clock reading — two invocations at the same clock reading with identical
issue, issue list, recommendation and repository name return identical
results and byte-identical output. (The counterexample above forces adding
the clock reading to the inputs: the report embeds the generation timestamp.) -/
theorem purity_given_clock (t1 t2 : Int) (i : Issue) (issues : List PrioritizedIssue)
    (rec repo : String) (h : t1 = t2) :
    get_priority_score t1 i none = get_priority_score t2 i none
      ∧ format_issue_summary t1 issues rec repo = format_issue_summary t2 issues rec repo := by
  subst h
  exact ⟨rfl, rfl⟩

/-- Witness for C6 (amended) at clock reading 0 on concrete inputs. -/
theorem purity_given_clock_witness :
    get_priority_score 0 issueZero none = get_priority_score 0 issueZero none
      ∧ format_issue_summary 0 [] "r" "o/r" = format_issue_summary 0 [] "r" "o/r" :=
  purity_given_clock 0 0 issueZero [] "r" "o/r" rfl
